import Mathlib

/-!
Shallow embedding of `homework.py`, a fitness-tracker module: an
`InfoMessage` formatter, a `Training` base class with three variants
(`Running`, `SportsWalking`, `Swimming`), a `read_package` factory and the
`output`/`main` drivers.  Python floats are modelled as `ℚ` (every operation
the program performs on them is field arithmetic), fallible Python code is
modelled in `Except PyErr`, and Python's `'{:.3f}'.format` rendering is
modelled by an executable decimal formatter.
-/

/-- Python exception kinds this program can surface.  `keyError` models
`KeyError` (a subclass of `LookupError`), `typeError` models `TypeError`,
`zeroDivisionError` models `ZeroDivisionError`, and `notImplementedError`
models `NotImplementedError` (constructed at `homework.py:47` but, because of
the `not` in `raise not NotImplementedError(...)`, never actually raised). -/
inductive PyErr where
  | keyError (msg : String)
  | typeError (msg : String)
  | zeroDivisionError
  | notImplementedError (msg : String)
  deriving DecidableEq, Repr

/-- Python's exception hierarchy makes `KeyError` (and `IndexError`) a
subclass of `LookupError`; the other kinds used here are not. -/
def PyErr.isLookupError : PyErr → Bool
  | .keyError _ => true
  | _ => false

/-- Python's `/` on floats: raises `ZeroDivisionError` on a zero divisor,
otherwise divides. -/
def pyDiv (a b : ℚ) : Except PyErr ℚ :=
  if b = 0 then .error .zeroDivisionError else .ok (a / b)

/-- Decimal digits of `n`, most significant first, by repeated division;
the first argument is fuel (taking `n` itself as fuel always suffices). -/
def natToDigitsAux : Nat → Nat → List Char
  | 0, _ => []
  | _ + 1, 0 => []
  | f + 1, n + 1 => natToDigitsAux f ((n + 1) / 10) ++ [Nat.digitChar ((n + 1) % 10)]

/-- Decimal rendering of a natural number (the integer part of `%.3f`). -/
def natRepr (n : Nat) : String :=
  if n = 0 then "0" else ⟨natToDigitsAux n n⟩

/-- The three fractional digits of `%.3f`: `k` is the rounded value's last
three decimal digits (`k < 1000`), zero-padded to width 3. -/
def frac3 (k : Nat) : String :=
  ⟨[Nat.digitChar (k / 100 % 10), Nat.digitChar (k / 10 % 10), Nat.digitChar (k % 10)]⟩

/-- Round `|q| * 1000` to the nearest natural number, ties to even — the
rounding CPython's float-to-decimal formatting uses — computed on the
numerator and denominator directly: with `N = |num| * 1000` and `D = den`,
the value is `N / D` rounded up exactly when the remainder exceeds `D / 2`,
with the half-way tie going to the even quotient. -/
def round3scaled (q : ℚ) : Nat :=
  let N := q.num.natAbs * 1000
  let D := q.den
  let p := N / D
  let r := N % D
  if 2 * r < D then p
  else if D < 2 * r then p + 1
  else if p % 2 = 0 then p else p + 1

/-- Model of Python's `'{:.3f}'.format(q)`: sign, integer part, a dot, and
exactly three fractional digits. -/
def fmt3 (q : ℚ) : String :=
  let s : String := if q.num < 0 then "-" else ""
  let n : Nat := round3scaled q
  s ++ natRepr (n / 1000) ++ "." ++ frac3 (n % 1000)

/-- The `InfoMessage` dataclass of `homework.py:5-22`: the summary value
object with the training-type name and four float metrics. -/
structure InfoMessage where
  training_type : String
  duration : ℚ
  distance : ℚ
  speed : ℚ
  calories : ℚ
  deriving DecidableEq, Repr

/-- One placeholder-or-literal chunk of the `MESSAGE` format template. -/
inductive Chunk where
  | lit (s : String)
  | kindField
  | durField
  | distField
  | spdField
  | calField
  deriving DecidableEq, Repr

/-- The `MESSAGE` class attribute of `InfoMessage` (`homework.py:13-18`):
the fixed template with one string placeholder and four `:.3f` placeholders. -/
def MESSAGE : List Chunk :=
  [.lit "Тип тренировки: ", .kindField,
   .lit "; Длительность: ", .durField,
   .lit " ч.; Дистанция: ", .distField,
   .lit " км; Ср. скорость: ", .spdField,
   .lit " км/ч; Потрачено ккал: ", .calField,
   .lit "."]

/-- Substitution of one template chunk from the message's fields, the float
fields through `%.3f` — the work `str.format(**asdict(self))` does. -/
def renderChunk (m : InfoMessage) : Chunk → String
  | .lit s => s
  | .kindField => m.training_type
  | .durField => fmt3 m.duration
  | .distField => fmt3 m.distance
  | .spdField => fmt3 m.speed
  | .calField => fmt3 m.calories

/-- `InfoMessage.get_message` (`homework.py:20-22`): instantiate `MESSAGE`
with the five fields. -/
def InfoMessage.get_message (m : InfoMessage) : String :=
  String.join (MESSAGE.map (renderChunk m))

/-- The `Training` class hierarchy of `homework.py:25-132` as a closed sum:
the base class (instantiable in Python as `Training()`) and the three
variants.  Field names follow the source, including the `lenght_pool` typo.
Note the source's `Training` declares `action`/`duration`/`weight` only as
class-level annotations and carries no `__init__` (the `@dataclass` decorator
used on `InfoMessage` is absent, although the `ClassVar` annotations and the
subclasses' `super().__init__(action, duration, weight)` calls presuppose the
dataclass-generated one); this type models the intended attribute layout. -/
inductive Training where
  | base (action duration weight : ℚ)
  | running (action duration weight : ℚ)
  | sportsWalking (action duration weight height : ℚ)
  | swimming (action duration weight lenght_pool count_pool : ℚ)
  deriving DecidableEq, Repr

/-- The `action` attribute. -/
def Training.action : Training → ℚ
  | .base a _ _ => a
  | .running a _ _ => a
  | .sportsWalking a _ _ _ => a
  | .swimming a _ _ _ _ => a

/-- The `duration` attribute. -/
def Training.duration : Training → ℚ
  | .base _ d _ => d
  | .running _ d _ => d
  | .sportsWalking _ d _ _ => d
  | .swimming _ d _ _ _ => d

/-- The `weight` attribute. -/
def Training.weight : Training → ℚ
  | .base _ _ w => w
  | .running _ _ w => w
  | .sportsWalking _ _ w _ => w
  | .swimming _ _ w _ _ => w

/-- `M_IN_KM = 1000` (`homework.py:30`). -/
def M_IN_KM : ℚ := 1000

/-- `MIN_IN_H = 60` (`homework.py:32`). -/
def MIN_IN_H : ℚ := 60

/-- The `LEN_STEP` class attribute: `0.65` on the base class
(`homework.py:31`), overridden to `1.38` by `Swimming` (`homework.py:104`). -/
def Training.LEN_STEP : Training → ℚ
  | .base _ _ _ => 0.65
  | .running _ _ _ => 0.65
  | .sportsWalking _ _ _ _ => 0.65
  | .swimming _ _ _ _ _ => 1.38

/-- Python's `type(self).__name__`, used by `show_training_info` for the
summary's training type. -/
def Training.typeName : Training → String
  | .base _ _ _ => "Training"
  | .running _ _ _ => "Running"
  | .sportsWalking _ _ _ _ => "SportsWalking"
  | .swimming _ _ _ _ _ => "Swimming"

/-- `Training.get_distance` (`homework.py:34-36`):
`self.action * self.LEN_STEP / self.M_IN_KM`, with `LEN_STEP` resolved on the
instance's class.  Division modelled by `pyDiv` like every Python `/`. -/
def Training.get_distance (t : Training) : Except PyErr ℚ :=
  pyDiv (t.action * t.LEN_STEP) M_IN_KM

/-- `get_mean_speed`: the base method (`homework.py:38-40`) is
`self.get_distance() / self.duration`; `Swimming` overrides it
(`homework.py:120-125`) with
`self.lenght_pool * self.count_pool / self.M_IN_KM / self.duration`. -/
def Training.get_mean_speed (t : Training) : Except PyErr ℚ :=
  match t with
  | .swimming _ d _ l c => do
      let q ← pyDiv (l * c) M_IN_KM
      pyDiv q d
  | _ => do
      let dist ← t.get_distance
      pyDiv dist t.duration

/-- `get_spent_calories`: the base method (`homework.py:42-48`) executes
`raise not NotImplementedError("метод get_spent_calories не переопределен у
наследника")`; since `not` of that (truthy) exception instance is `False` and
`raise False` is illegal, CPython raises
`TypeError: exceptions must derive from BaseException`.  The overrides are
`Running.get_spent_calories` (`homework.py:66-70`),
`SportsWalking.get_spent_calories` (`homework.py:92-98`) and
`Swimming.get_spent_calories` (`homework.py:127-132`), with the constants
declared on each class (`18`, `1.79`; `0.035`, `0.278`, `0.029`, `100`;
`1.1`, `2`). -/
def Training.get_spent_calories (t : Training) : Except PyErr ℚ :=
  match t with
  | .base _ _ _ => .error (.typeError "exceptions must derive from BaseException")
  | .running _ d w => do
      let s ← t.get_mean_speed
      .ok ((18 * s + 1.79) * w / M_IN_KM * d * MIN_IN_H)
  | .sportsWalking _ d w h => do
      let s ← t.get_mean_speed
      let q ← pyDiv ((s * 0.278) ^ 2) (h / 100)
      .ok ((0.035 * w + q * 0.029 * w) * (d * MIN_IN_H))
  | .swimming _ d w _ _ => do
      let s ← t.get_mean_speed
      .ok ((s + 1.1) * 2 * w * d)

/-- `Training.show_training_info` (`homework.py:50-58`): builds the
`InfoMessage` from `type(self).__name__`, `self.duration` and the three
method calls, in source order; no variant overrides this method, and the
three calls inside it dispatch dynamically on `self`. -/
def Training.show_training_info (t : Training) : Except PyErr InfoMessage := do
  let dist ← t.get_distance
  let spd ← t.get_mean_speed
  let cal ← t.get_spent_calories
  .ok ⟨t.typeName, t.duration, dist, spd, cal⟩

/-- `read_package` (`homework.py:135-148`): dictionary dispatch on the code,
then the construction `training_comparsion[type_training](*data)`, else
`KeyError(f'Нет данных о тренировке {type_training}.')`.  The construction is
modelled as CPython executes it: `Training` defines no `__init__` (see the
comment on `Training`), so every construction the factory attempts raises
`TypeError` and no variant is ever returned.  For `RUN`, `object.__new__`
rejects the arguments with `Running() takes no arguments` (for any non-empty
`data`; the zero-argument call `Running()`, which neither the program nor any
claim makes, is the one call CPython admits — it yields an instance carrying
none of the data attributes, a state outside this record type, and is
reported here with the same message).  For `SWM`/`WLK` at the subclass
`__init__`'s own arity, argument binding succeeds and then `object.__init__`
rejects the three arguments `super().__init__(action, duration, weight)`
passes; at any other arity the `TypeError` already comes from binding the
subclass `__init__`'s parameters (CPython's binding messages enumerate the
parameters and are abbreviated here). -/
def read_package (type_training : String) (data : List ℚ) : Except PyErr Training :=
  if type_training = "SWM" then
    match data with
    | [_, _, _, _, _] =>
        .error (.typeError "object.__init__() takes exactly one argument (the instance to initialize)")
    | _ => .error (.typeError "Swimming.__init__() wrong number of positional arguments")
  else if type_training = "RUN" then
    .error (.typeError "Running() takes no arguments")
  else if type_training = "WLK" then
    match data with
    | [_, _, _, _] =>
        .error (.typeError "object.__init__() takes exactly one argument (the instance to initialize)")
    | _ => .error (.typeError "SportsWalking.__init__() wrong number of positional arguments")
  else
    .error (.keyError ("Нет данных о тренировке " ++ type_training ++ "."))

/-- `output` (`homework.py:151-154`): `training.show_training_info()` — an
instance call, resolved to the base method since no variant overrides it —
then `message.get_message()`. -/
def output (t : Training) : Except PyErr String :=
  (t.show_training_info).map InfoMessage.get_message

/-- The string `main` (`homework.py:157-158`) passes to `print`:
`Training.show_training_info(training).get_message()`, calling the method
explicitly through the base class. -/
def main_output (t : Training) : Except PyErr String :=
  (Training.show_training_info t).map InfoMessage.get_message

/-- The formatter template as the specification words it (its §4.6 fixed
template, in English), for comparison with the source's `get_message`: this
definition follows the spec text, not the source. -/
def spec_english_format (m : InfoMessage) : String :=
  "Training type: " ++ m.training_type ++ "; Duration: " ++ fmt3 m.duration
    ++ " h; Distance: " ++ fmt3 m.distance ++ " km; Avg speed: " ++ fmt3 m.speed
    ++ " km/h; Calories: " ++ fmt3 m.calories ++ "."

/-! Helper lemmas. -/

lemma except_ok_bind {α β : Type} (a : α) (f : α → Except PyErr β) :
    (Except.ok a : Except PyErr α) >>= f = f a := rfl

lemma except_error_bind {α β : Type} (e : PyErr) (f : α → Except PyErr β) :
    (Except.error e : Except PyErr α) >>= f = .error e := rfl

lemma pyDiv_ok {a b : ℚ} (h : b ≠ 0) : pyDiv a b = .ok (a / b) := by
  simp [pyDiv, h]

lemma get_message_flat (m : InfoMessage) : m.get_message =
    "Тип тренировки: " ++ m.training_type ++ "; Длительность: " ++ fmt3 m.duration
      ++ " ч.; Дистанция: " ++ fmt3 m.distance ++ " км; Ср. скорость: " ++ fmt3 m.speed
      ++ " км/ч; Потрачено ккал: " ++ fmt3 m.calories ++ "." := by
  simp [InfoMessage.get_message, MESSAGE, String.join, renderChunk]

lemma digitChar_mod10_isDigit (m : Nat) : (Nat.digitChar (m % 10)).isDigit = true := by
  have h : m % 10 < 10 := Nat.mod_lt _ (by norm_num)
  interval_cases h' : m % 10 <;> rfl

lemma natToDigitsAux_all_digit (f n : Nat) :
    (natToDigitsAux f n).all Char.isDigit = true := by
  induction f generalizing n with
  | zero => rfl
  | succ f ih =>
    cases n with
    | zero => rfl
    | succ n =>
      rw [natToDigitsAux, List.all_append]
      simp [ih, digitChar_mod10_isDigit]

lemma natRepr_all_digit (n : Nat) : (natRepr n).data.all Char.isDigit = true := by
  unfold natRepr
  split
  · rfl
  · exact natToDigitsAux_all_digit n n

lemma all_not_dot_of_all_digit (l : List Char) (h : l.all Char.isDigit = true) :
    l.all (fun c => !(c == '.')) = true := by
  rw [List.all_eq_true] at h ⊢
  intro c hc
  have hd := h c hc
  rw [Bool.not_eq_true', beq_eq_false_iff_ne]
  intro heq
  rw [heq] at hd
  exact absurd hd (by decide)

lemma run_sample_summary :
    (Training.running 15000 1 75).show_training_info
      = .ok ⟨"Running", 1, 9.75, 9.75, 797.805⟩ := by
  simp only [Training.show_training_info, Training.get_distance, Training.get_mean_speed,
    Training.get_spent_calories, Training.typeName, Training.action, Training.duration,
    Training.weight, Training.LEN_STEP, M_IN_KM, MIN_IN_H]
  norm_num [pyDiv, except_ok_bind, Except.ok.injEq, InfoMessage.mk.injEq]

/-! Theorems settling the claims. -/

/-- Claim C2 (the code has a bug here: the claim says that for every
recognized code and matching-arity parameter sequence the factory succeeds
and assigns the parameters positionally to the variant's constructor fields;
in fact, because `Training` carries no `__init__`, every such construction
raises `TypeError` in CPython and no variant is ever produced): evaluating
the factory at every matching-arity input of each recognized code yields the
`TypeError` and never an `ok` variant. -/
theorem read_package_construction_typeError :
    (∀ a d w : ℚ, read_package "RUN" [a, d, w]
        = .error (.typeError "Running() takes no arguments") ∧
      ∀ t, read_package "RUN" [a, d, w] ≠ .ok t) ∧
    (∀ a d w h : ℚ, read_package "WLK" [a, d, w, h]
        = .error (.typeError
            "object.__init__() takes exactly one argument (the instance to initialize)") ∧
      ∀ t, read_package "WLK" [a, d, w, h] ≠ .ok t) ∧
    (∀ a d w l c : ℚ, read_package "SWM" [a, d, w, l, c]
        = .error (.typeError
            "object.__init__() takes exactly one argument (the instance to initialize)") ∧
      ∀ t, read_package "SWM" [a, d, w, l, c] ≠ .ok t) :=
  ⟨fun _ _ _ => ⟨rfl, fun _ ht => Except.noConfusion ht⟩,
   fun _ _ _ _ => ⟨rfl, fun _ ht => Except.noConfusion ht⟩,
   fun _ _ _ _ _ => ⟨rfl, fun _ ht => Except.noConfusion ht⟩⟩

/-- Claim C3 (confirmed): for every code outside `SWM`/`RUN`/`WLK` and any
data, `read_package` fails with a `KeyError` — a `LookupError` subclass in
Python — whose message carries the offending code, and returns no variant. -/
theorem read_package_unknown_code_lookupError (code : String) (data : List ℚ)
    (h1 : code ≠ "SWM") (h2 : code ≠ "RUN") (h3 : code ≠ "WLK") :
    read_package code data
        = .error (.keyError ("Нет данных о тренировке " ++ code ++ ".")) ∧
    (PyErr.keyError ("Нет данных о тренировке " ++ code ++ ".")).isLookupError = true ∧
    ∀ t, read_package code data ≠ .ok t := by
  have hmain : read_package code data
      = .error (.keyError ("Нет данных о тренировке " ++ code ++ ".")) := by
    simp [read_package, h1, h2, h3]
  exact ⟨hmain, rfl, fun t ht => by rw [hmain] at ht; exact Except.noConfusion ht⟩

theorem read_package_unknown_code_lookupError_witness :
    ("XYZ" : String) ≠ "SWM" ∧ ("XYZ" : String) ≠ "RUN" ∧ ("XYZ" : String) ≠ "WLK" ∧
    read_package "XYZ" [1] = .error (.keyError ("Нет данных о тренировке " ++ "XYZ" ++ ".")) ∧
    (PyErr.keyError ("Нет данных о тренировке " ++ "XYZ" ++ ".")).isLookupError = true :=
  ⟨by decide, by decide, by decide,
   (read_package_unknown_code_lookupError "XYZ" [1] (by decide) (by decide) (by decide)).1,
   (read_package_unknown_code_lookupError "XYZ" [1] (by decide) (by decide) (by decide)).2.1⟩

/-- Claim C5 (the code has a bug here: the base `get_spent_calories`
executes `raise not NotImplementedError(...)`, and since `not` of the
exception instance is the boolean `False`, CPython raises
`TypeError: exceptions must derive from BaseException` instead of the
`NotImplementedError` the claim and the method's own docstring describe):
on every base-instance state the call fails, but with a `TypeError`, never
with a `NotImplementedError`. -/
theorem base_get_spent_calories_typeError (a d w : ℚ) :
    (Training.base a d w).get_spent_calories
        = .error (.typeError "exceptions must derive from BaseException") ∧
    ∀ msg, (Training.base a d w).get_spent_calories
        ≠ .error (.notImplementedError msg) := by
  refine ⟨rfl, fun msg h => ?_⟩
  exact PyErr.noConfusion (Except.error.inj h)

theorem base_get_spent_calories_typeError_witness :
    (Training.base 0 1 70).get_spent_calories
        = .error (.typeError "exceptions must derive from BaseException") ∧
    (Training.base 0 1 70).get_spent_calories
        ≠ .error (.notImplementedError "метод get_spent_calories не переопределен у наследника") :=
  ⟨(base_get_spent_calories_typeError 0 1 70).1,
   (base_get_spent_calories_typeError 0 1 70).2 _⟩

/-- Claim C8 (confirmed): `get_distance` is `action * LEN_STEP / 1000` with
`LEN_STEP = 0.65` on the base class, `Running` and `SportsWalking` and
`1.38` on `Swimming`; in particular on valid `Running` inputs the distance
equals `action * 0.65 / 1000` exactly, hence within tolerance `1e-9`. -/
theorem get_distance_step_formula :
    (∀ a d w : ℚ, (Training.base a d w).get_distance = .ok (a * 0.65 / 1000)) ∧
    (∀ a d w : ℚ, (Training.running a d w).get_distance = .ok (a * 0.65 / 1000)) ∧
    (∀ a d w h : ℚ, (Training.sportsWalking a d w h).get_distance = .ok (a * 0.65 / 1000)) ∧
    (∀ a d w l c : ℚ, (Training.swimming a d w l c).get_distance = .ok (a * 1.38 / 1000)) ∧
    (∀ a d w : ℚ, 0 ≤ a → 0 < d → 0 ≤ w →
      ∃ dist, (Training.running a d w).get_distance = .ok dist ∧
        |dist - a * 0.65 / 1000| ≤ 1 / 1000000000) := by
  refine ⟨fun a d w => ?_, fun a d w => ?_, fun a d w h => ?_, fun a d w l c => ?_,
    fun a d w _ _ _ => ⟨a * 0.65 / 1000, ?_, by rw [sub_self, abs_zero]; norm_num⟩⟩ <;>
    · simp only [Training.get_distance, Training.action, Training.LEN_STEP, M_IN_KM]
      rw [pyDiv_ok (by norm_num)]

theorem get_distance_step_formula_witness :
    (0:ℚ) ≤ 15000 ∧ (0:ℚ) < 1 ∧ (0:ℚ) ≤ 75 ∧
    ∃ dist, (Training.running 15000 1 75).get_distance = .ok dist ∧
      |dist - 15000 * 0.65 / 1000| ≤ 1 / 1000000000 :=
  ⟨by norm_num, by norm_num, by norm_num,
   get_distance_step_formula.2.2.2.2 15000 1 75 (by norm_num) (by norm_num) (by norm_num)⟩

/-- Claim C9 (confirmed): for swimming with positive duration, the mean
speed is `lenght_pool * count_pool / 1000 / duration`, and the result does
not depend on `action` (hence on no step-length constant: neither `0.65`
nor `1.38` occurs in the value). -/
theorem swimming_mean_speed_pool (a d w l c : ℚ) (hd : 0 < d) :
    (Training.swimming a d w l c).get_mean_speed = .ok (l * c / 1000 / d) ∧
    ∀ a' : ℚ, (Training.swimming a' d w l c).get_mean_speed
        = (Training.swimming a d w l c).get_mean_speed := by
  have key : ∀ x : ℚ, (Training.swimming x d w l c).get_mean_speed
      = .ok (l * c / 1000 / d) := by
    intro x
    simp only [Training.get_mean_speed, M_IN_KM]
    rw [pyDiv_ok (by norm_num), except_ok_bind, pyDiv_ok hd.ne']
  exact ⟨key a, fun a' => (key a').trans (key a).symm⟩

theorem swimming_mean_speed_pool_witness :
    (0:ℚ) < 1 ∧
    (Training.swimming 720 1 80 25 40).get_mean_speed = .ok (25 * 40 / 1000 / 1) ∧
    (Training.swimming 0 1 80 25 40).get_mean_speed
        = (Training.swimming 720 1 80 25 40).get_mean_speed :=
  ⟨by norm_num, (swimming_mean_speed_pool 720 1 80 25 40 (by norm_num)).1,
   (swimming_mean_speed_pool 720 1 80 25 40 (by norm_num)).2 0⟩

lemma ok_ne_error {α : Type} (X : Except PyErr α) (h : ∃ v, X = .ok v) (e : PyErr) :
    X ≠ .error e := by
  obtain ⟨v, hv⟩ := h
  rw [hv]
  exact fun hc => Except.noConfusion hc

lemma running_methods_ok (a d w : ℚ) (hd : d ≠ 0) :
    (Training.running a d w).get_distance = .ok (a * 0.65 / 1000) ∧
    (Training.running a d w).get_mean_speed = .ok (a * 0.65 / 1000 / d) ∧
    (Training.running a d w).get_spent_calories
        = .ok ((18 * (a * 0.65 / 1000 / d) + 1.79) * w / 1000 * d * 60) := by
  refine ⟨?_, ?_, ?_⟩
  · simp only [Training.get_distance, Training.action, Training.LEN_STEP, M_IN_KM]
    rw [pyDiv_ok (by norm_num)]
  · simp only [Training.get_mean_speed, Training.get_distance, Training.action,
      Training.duration, Training.LEN_STEP, M_IN_KM]
    rw [pyDiv_ok (by norm_num)]
    simp only [except_ok_bind]
    rw [pyDiv_ok hd]
  · simp only [Training.get_spent_calories, Training.get_mean_speed, Training.get_distance,
      Training.action, Training.duration, Training.weight, Training.LEN_STEP, M_IN_KM, MIN_IN_H]
    rw [pyDiv_ok (by norm_num)]
    simp only [except_ok_bind]
    rw [pyDiv_ok hd]
    simp only [except_ok_bind]

lemma walking_methods_ok (a d w h : ℚ) (hd : d ≠ 0) (hh : h ≠ 0) :
    (Training.sportsWalking a d w h).get_distance = .ok (a * 0.65 / 1000) ∧
    (Training.sportsWalking a d w h).get_mean_speed = .ok (a * 0.65 / 1000 / d) ∧
    (Training.sportsWalking a d w h).get_spent_calories
        = .ok ((0.035 * w + (a * 0.65 / 1000 / d * 0.278) ^ 2 / (h / 100) * 0.029 * w)
            * (d * 60)) := by
  have hdiv : h / 100 ≠ (0:ℚ) := div_ne_zero hh (by norm_num)
  refine ⟨?_, ?_, ?_⟩
  · simp only [Training.get_distance, Training.action, Training.LEN_STEP, M_IN_KM]
    rw [pyDiv_ok (by norm_num)]
  · simp only [Training.get_mean_speed, Training.get_distance, Training.action,
      Training.duration, Training.LEN_STEP, M_IN_KM]
    rw [pyDiv_ok (by norm_num)]
    simp only [except_ok_bind]
    rw [pyDiv_ok hd]
  · simp only [Training.get_spent_calories, Training.get_mean_speed, Training.get_distance,
      Training.action, Training.duration, Training.weight, Training.LEN_STEP, M_IN_KM, MIN_IN_H]
    rw [pyDiv_ok (by norm_num)]
    simp only [except_ok_bind]
    rw [pyDiv_ok hd]
    simp only [except_ok_bind]
    rw [pyDiv_ok hdiv]
    simp only [except_ok_bind]

lemma swimming_methods_ok (a d w l c : ℚ) (hd : d ≠ 0) :
    (Training.swimming a d w l c).get_distance = .ok (a * 1.38 / 1000) ∧
    (Training.swimming a d w l c).get_mean_speed = .ok (l * c / 1000 / d) ∧
    (Training.swimming a d w l c).get_spent_calories
        = .ok ((l * c / 1000 / d + 1.1) * 2 * w * d) := by
  refine ⟨?_, ?_, ?_⟩
  · simp only [Training.get_distance, Training.action, Training.LEN_STEP, M_IN_KM]
    rw [pyDiv_ok (by norm_num)]
  · simp only [Training.get_mean_speed, M_IN_KM]
    rw [pyDiv_ok (by norm_num)]
    simp only [except_ok_bind]
    rw [pyDiv_ok hd]
  · simp only [Training.get_spent_calories, Training.get_mean_speed, Training.duration,
      Training.weight, M_IN_KM]
    rw [pyDiv_ok (by norm_num)]
    simp only [except_ok_bind]
    rw [pyDiv_ok hd]
    simp only [except_ok_bind]

/-- Claim C4 (corrected — the §3 invariant alone is not sufficient: a
`SportsWalking` record with `height = 0` satisfies it, yet
`get_spent_calories` divides by `height / 100 = 0`): the invariant holds at
`action = 9000, duration = 1, weight = 75, height = 0` and the calorie
computation raises `ZeroDivisionError`. -/
theorem walking_zero_height_zeroDivision :
    ((0:ℚ) ≤ 9000 ∧ (0:ℚ) < 1 ∧ (0:ℚ) ≤ 75 ∧ (0:ℚ) ≤ 0) ∧
    (Training.sportsWalking 9000 1 75 0).get_spent_calories
        = .error .zeroDivisionError := by
  refine ⟨by norm_num, ?_⟩
  simp only [Training.get_spent_calories, Training.get_mean_speed, Training.get_distance,
    Training.action, Training.duration, Training.weight, Training.LEN_STEP, M_IN_KM, MIN_IN_H]
  norm_num [pyDiv, except_ok_bind, except_error_bind]

/-- Claim C4 as amended (with the extra requirement `height > 0` for
`SportsWalking`, which the exhibited counterexample forces): under the §3
invariant so strengthened, none of `get_distance`, `get_mean_speed`,
`get_spent_calories` on any of the three variants raises
`ZeroDivisionError`. -/
theorem variants_no_div_by_zero :
    (∀ a d w : ℚ, 0 ≤ a → 0 < d → 0 ≤ w →
      (Training.running a d w).get_distance ≠ .error .zeroDivisionError ∧
      (Training.running a d w).get_mean_speed ≠ .error .zeroDivisionError ∧
      (Training.running a d w).get_spent_calories ≠ .error .zeroDivisionError) ∧
    (∀ a d w h : ℚ, 0 ≤ a → 0 < d → 0 ≤ w → 0 < h →
      (Training.sportsWalking a d w h).get_distance ≠ .error .zeroDivisionError ∧
      (Training.sportsWalking a d w h).get_mean_speed ≠ .error .zeroDivisionError ∧
      (Training.sportsWalking a d w h).get_spent_calories ≠ .error .zeroDivisionError) ∧
    (∀ a d w l c : ℚ, 0 ≤ a → 0 < d → 0 ≤ w → 0 ≤ l → 0 ≤ c →
      (Training.swimming a d w l c).get_distance ≠ .error .zeroDivisionError ∧
      (Training.swimming a d w l c).get_mean_speed ≠ .error .zeroDivisionError ∧
      (Training.swimming a d w l c).get_spent_calories ≠ .error .zeroDivisionError) := by
  refine ⟨fun a d w _ hd _ => ?_, fun a d w h _ hd _ hh => ?_, fun a d w l c _ hd _ _ _ => ?_⟩
  · obtain ⟨h1, h2, h3⟩ := running_methods_ok a d w hd.ne'
    exact ⟨ok_ne_error _ ⟨_, h1⟩ _, ok_ne_error _ ⟨_, h2⟩ _, ok_ne_error _ ⟨_, h3⟩ _⟩
  · obtain ⟨h1, h2, h3⟩ := walking_methods_ok a d w h hd.ne' hh.ne'
    exact ⟨ok_ne_error _ ⟨_, h1⟩ _, ok_ne_error _ ⟨_, h2⟩ _, ok_ne_error _ ⟨_, h3⟩ _⟩
  · obtain ⟨h1, h2, h3⟩ := swimming_methods_ok a d w l c hd.ne'
    exact ⟨ok_ne_error _ ⟨_, h1⟩ _, ok_ne_error _ ⟨_, h2⟩ _, ok_ne_error _ ⟨_, h3⟩ _⟩

theorem variants_no_div_by_zero_witness :
    ((0:ℚ) ≤ 9000 ∧ (0:ℚ) < 1 ∧ (0:ℚ) ≤ 75 ∧ (0:ℚ) < 180) ∧
    ((Training.sportsWalking 9000 1 75 180).get_distance ≠ .error .zeroDivisionError ∧
     (Training.sportsWalking 9000 1 75 180).get_mean_speed ≠ .error .zeroDivisionError ∧
     (Training.sportsWalking 9000 1 75 180).get_spent_calories ≠ .error .zeroDivisionError) :=
  ⟨by norm_num,
   variants_no_div_by_zero.2.1 9000 1 75 180 (by norm_num) (by norm_num) (by norm_num) (by norm_num)⟩

/-- Claim C1 (the code has a bug here: the claimed round trip never
happens — at `create("RUN", [15000, 1, 75])` CPython raises
`TypeError: Running() takes no arguments` during construction, `Training`
having no `__init__`, so `get_summary` is never reached and no summary
exists): the factory evaluated at the failing input raises the `TypeError`
and yields no training value; separately, on a `Running` record carrying
these attributes the (faithfully modelled) methods give distance `9.75`,
mean speed `9.75` and calories `797.805` — the §4.1–§4.2 formula values —
so the claimed calories `≈ 78.68` also disagree with the claim's own
formulas by more than `1`. -/
theorem run_roundtrip_construction_typeError :
    read_package "RUN" [15000, 1, 75]
        = .error (.typeError "Running() takes no arguments") ∧
    (∀ t, read_package "RUN" [15000, 1, 75] ≠ .ok t) ∧
    (Training.running 15000 1 75).show_training_info
        = .ok ⟨"Running", 1, 9.75, 9.75, 797.805⟩ ∧
    ¬(|(797.805 : ℚ) - 78.68| ≤ 1) := by
  refine ⟨rfl, fun t ht => Except.noConfusion ht, run_sample_summary, ?_⟩
  rw [not_le, abs_of_nonneg (by norm_num : (0:ℚ) ≤ 797.805 - 78.68)]
  norm_num

/-- Claim C6 (corrected — the template of the source is the Russian
`'Тип тренировки: ...'` string, not the English `"Training type: ..."` one
the claim quotes): at a concrete summary the two renderings differ. -/
theorem get_message_ne_english_template :
    InfoMessage.get_message ⟨"Running", 1, 9, 9, 797⟩
      ≠ spec_english_format ⟨"Running", 1, 9, 9, 797⟩ := by decide

/-- Claim C6 as amended (with the source's Russian template text): for
every summary, `get_message` is exactly the fixed template
`'Тип тренировки: {...}; Длительность: {...:.3f} ч.; Дистанция: {...:.3f}
км; Ср. скорость: {...:.3f} км/ч; Потрачено ккал: {...:.3f}.'` with the
five fields substituted in order. -/
theorem get_message_fixed_template (m : InfoMessage) : m.get_message =
    "Тип тренировки: " ++ m.training_type ++ "; Длительность: " ++ fmt3 m.duration
      ++ " ч.; Дистанция: " ++ fmt3 m.distance ++ " км; Ср. скорость: " ++ fmt3 m.speed
      ++ " км/ч; Потрачено ккал: " ++ fmt3 m.calories ++ "." :=
  get_message_flat m

/-- Claim C7 (confirmed): every value the `%.3f` formatter renders ends in
a dot followed by exactly three digits (and no dot occurs before that one),
regardless of magnitude — e.g. `9` renders as `"9.000"` — and each of the
four float fields of a summary passes through that formatter. -/
theorem fmt3_three_decimal_digits :
    (∀ q : ℚ, ∃ s t : String, fmt3 q = s ++ "." ++ t ∧ t.length = 3 ∧
      t.data.all Char.isDigit = true ∧ s.data.all (fun c => !(c == '.')) = true) ∧
    fmt3 9 = "9.000" ∧
    (∀ m : InfoMessage, m.get_message =
      "Тип тренировки: " ++ m.training_type ++ "; Длительность: " ++ fmt3 m.duration
        ++ " ч.; Дистанция: " ++ fmt3 m.distance ++ " км; Ср. скорость: " ++ fmt3 m.speed
        ++ " км/ч; Потрачено ккал: " ++ fmt3 m.calories ++ ".") := by
  refine ⟨fun q => ?_, rfl, get_message_flat⟩
  refine ⟨(if q.num < 0 then "-" else "") ++ natRepr (round3scaled q / 1000),
    frac3 (round3scaled q % 1000), rfl, rfl, ?_, ?_⟩
  · show ([Nat.digitChar (round3scaled q % 1000 / 100 % 10),
      Nat.digitChar (round3scaled q % 1000 / 10 % 10),
      Nat.digitChar (round3scaled q % 1000 % 10)].all Char.isDigit) = true
    simp [digitChar_mod10_isDigit]
  · rw [String.data_append, List.all_append, Bool.and_eq_true]
    constructor
    · split <;> rfl
    · exact all_not_dot_of_all_digit _ (natRepr_all_digit _)

/-- Claim C10 (confirmed): `output` and `main` produce the same string for
every training value — calling `show_training_info` through the base class,
as `main` does, is the very same method the instance call resolves to, and
the summary it builds takes its distance, speed and calorie entries from
the dispatched variant methods. -/
theorem output_eq_main_output (t : Training) :
    output t = main_output t ∧
    ∀ m : InfoMessage, t.show_training_info = .ok m →
      m.training_type = t.typeName ∧ m.duration = t.duration ∧
      t.get_distance = .ok m.distance ∧ t.get_mean_speed = .ok m.speed ∧
      t.get_spent_calories = .ok m.calories := by
  refine ⟨rfl, fun m hm => ?_⟩
  simp only [Training.show_training_info] at hm
  cases hdist : t.get_distance with
  | error e =>
    rw [hdist] at hm
    simp only [except_error_bind] at hm
    exact Except.noConfusion hm
  | ok dist =>
    rw [hdist] at hm
    simp only [except_ok_bind] at hm
    cases hspd : t.get_mean_speed with
    | error e =>
      rw [hspd] at hm
      simp only [except_error_bind] at hm
      exact Except.noConfusion hm
    | ok spd =>
      rw [hspd] at hm
      simp only [except_ok_bind] at hm
      cases hcal : t.get_spent_calories with
      | error e =>
        rw [hcal] at hm
        simp only [except_error_bind] at hm
        exact Except.noConfusion hm
      | ok cal =>
        rw [hcal] at hm
        simp only [except_ok_bind] at hm
        cases Except.ok.inj hm
        exact ⟨rfl, rfl, rfl, rfl, rfl⟩

theorem output_eq_main_output_witness :
    (Training.running 15000 1 75).show_training_info
        = .ok ⟨"Running", 1, 9.75, 9.75, 797.805⟩ ∧
    output (Training.running 15000 1 75) = main_output (Training.running 15000 1 75) ∧
    (Training.running 15000 1 75).get_spent_calories = .ok (797.805 : ℚ) :=
  ⟨run_sample_summary, (output_eq_main_output _).1,
   ((output_eq_main_output (Training.running 15000 1 75)).2 _ run_sample_summary).2.2.2.2⟩
